import Mathlib

/-!
Verification development for the PDF credit-card statement parser
(`parser.py`).  The Python source is shallowly embedded below: text is a
list of characters, each regular expression of the source is embedded as a
small pattern value interpreted by a greedy backtracking matcher with the
semantics of Python's `re.search` (leftmost start position, greedy
quantifiers with backtracking, capture group 1), dictionaries are
association lists in insertion order, and code that can raise returns
`Except`.
-/

set_option maxRecDepth 4000

namespace PDFParser

/-- Document text, as a list of characters. -/
abbrev Text := List Char

/-- Python's substring test `p in s` for strings: `p` occurs contiguously in `s`. -/
def containsSub (p : Text) : Text → Bool
  | [] => p.isEmpty
  | s@(_ :: t) => p.isPrefixOf s || containsSub p t

/-- Python whitespace (`str.strip`, regex `\s`), restricted to ASCII. -/
def pyWs (c : Char) : Bool :=
  c = ' ' || c = '\t' || c = '\n' || c = '\r' || c = '\x0b' || c = '\x0c'

/-- Regex `\d`, ASCII digits. -/
def pyDigit (c : Char) : Bool := '0' ≤ c && c ≤ '9'

/-- Regex character set `[A-Z\s]`. -/
def upperOrWs (c : Char) : Bool := ('A' ≤ c && c ≤ 'Z') || pyWs c

/-- Regex character set `[\d,]`. -/
def digitOrComma (c : Char) : Bool := pyDigit c || c = ','

/-- Python `str.strip()`: remove leading and trailing whitespace. -/
def pyStrip (s : Text) : Text :=
  ((s.dropWhile pyWs).reverse.dropWhile pyWs).reverse

/-- Python `not text.strip()`: the text is empty or whitespace-only. -/
def pyBlank (t : Text) : Bool := t.all pyWs

/-- The regex elements occurring in the source's patterns: a literal string,
a greedy `+` or `*` over a one-character class, and a counted repetition
`{n}` of a one-character class. -/
inductive RE : Type
  | lit (l : Text)
  | clsPlus (p : Char → Bool)
  | clsStar (p : Char → Bool)
  | repCls (n : Nat) (p : Char → Bool)

/-- Greedy backtracking for a class quantifier: try consuming `m` characters
first, then `m - 1`, ..., down to `lo`, returning the first success of the
continuation `k`. -/
def tryLens {α : Type} (k : Text → Option α) (s : Text) (lo : Nat) : Nat → Option α
  | 0 => if lo = 0 then k s else none
  | m + 1 =>
    if m + 1 < lo then none
    else
      match k (s.drop (m + 1)) with
      | some r => some r
      | none => tryLens k s lo m

/-- Match a sequence of regex elements at the start of `s`, with Python's
greedy-backtracking semantics, passing the remaining text to the
continuation `k`; earlier quantifiers give up length only after later
alternatives are exhausted, as in Python `re`. -/
def matchSeq {α : Type} : List RE → Text → (Text → Option α) → Option α
  | [], s, k => k s
  | RE.lit l :: rs, s, k =>
    if l.isPrefixOf s then matchSeq rs (s.drop l.length) k else none
  | RE.clsPlus p :: rs, s, k =>
    tryLens (fun s1 => matchSeq rs s1 k) s 1 (s.takeWhile p).length
  | RE.clsStar p :: rs, s, k =>
    tryLens (fun s1 => matchSeq rs s1 k) s 0 (s.takeWhile p).length
  | RE.repCls n p :: rs, s, k =>
    if (s.take n).length = n && (s.take n).all p
    then matchSeq rs (s.drop n) k else none

/-- A source pattern: the part before the capturing group, the group's
content, and the part after the group.  Every pattern in the source has
exactly one capturing group. -/
structure Pat where
  pre : List RE
  grp : List RE
  post : List RE

/-- Match the pattern anchored at the start of `s`; on success return the
text captured by group 1. -/
def matchGrpAt (pat : Pat) (s : Text) : Option Text :=
  matchSeq pat.pre s fun s1 =>
    matchSeq pat.grp s1 fun s2 =>
      matchSeq pat.post s2 fun _ =>
        some (s1.take (s1.length - s2.length))

/-- Python `re.search(pattern, text).group(1)`: try each start position from
the left, returning the capture of the first position where the whole
pattern matches, or `none`. -/
def search (pat : Pat) : Text → Option Text
  | [] => matchGrpAt pat []
  | s@(_ :: t) =>
    match matchGrpAt pat s with
    | some g => some g
    | none => search pat t

/-- Source pattern `Name:\s+([A-Z\s]+)\n`. -/
def namePat : Pat :=
  ⟨[RE.lit "Name:".data, RE.clsPlus pyWs], [RE.clsPlus upperOrWs], [RE.lit "\n".data]⟩

/-- Source pattern `Card No:\s+XXXX XXXX XXXX (\d{4})`. -/
def cardPat : Pat :=
  ⟨[RE.lit "Card No:".data, RE.clsPlus pyWs, RE.lit "XXXX XXXX XXXX ".data],
   [RE.repCls 4 pyDigit], []⟩

/-- Source pattern `Payment Due Date:\s*(\d{2}-\d{2}-\d{4})`. -/
def dueDatePat : Pat :=
  ⟨[RE.lit "Payment Due Date:".data, RE.clsStar pyWs],
   [RE.repCls 2 pyDigit, RE.lit "-".data, RE.repCls 2 pyDigit, RE.lit "-".data,
    RE.repCls 4 pyDigit], []⟩

/-- Source pattern `Total Dues\s+([\d,]+\.\d{2})`. -/
def balancePat : Pat :=
  ⟨[RE.lit "Total Dues".data, RE.clsPlus pyWs],
   [RE.clsPlus digitOrComma, RE.lit ".".data, RE.repCls 2 pyDigit], []⟩

/-- Source pattern `Statement Date\s*(\d{2}-\d{2}-\d{4})`. -/
def periodPat : Pat :=
  ⟨[RE.lit "Statement Date".data, RE.clsStar pyWs],
   [RE.repCls 2 pyDigit, RE.lit "-".data, RE.repCls 2 pyDigit, RE.lit "-".data,
    RE.repCls 4 pyDigit], []⟩

/-- Source pattern `Prepared for:\s+([A-Z\s]+),` (Amex). -/
def preparedForPat : Pat :=
  ⟨[RE.lit "Prepared for:".data, RE.clsPlus pyWs], [RE.clsPlus upperOrWs],
   [RE.lit ",".data]⟩

/-- The result of `extract`: a Python dict as an association list in
insertion order, field name to extracted value. -/
abbrev ExtractionResult := List (String × Text)

/-- `HDFCParser.extract`: each field pattern is searched in turn and the
found fields are inserted into the dict, with the source's formatting of
each value. -/
def hdfcExtract (t : Text) : ExtractionResult :=
  let data : ExtractionResult := []
  let data := match search namePat t with
    | some m => data ++ [("Cardholder Name", pyStrip m)]
    | none => data
  let data := match search cardPat t with
    | some m => data ++ [("Card Last 4 Digits", m)]
    | none => data
  let data := match search dueDatePat t with
    | some m => data ++ [("Payment Due Date", m)]
    | none => data
  let data := match search balancePat t with
    | some m => data ++ [("Total Balance Due", "₹".data ++ m)]
    | none => data
  let data := match search periodPat t with
    | some m => data ++ [("Billing Cycle", "Statement Date: ".data ++ m)]
    | none => data
  data

/-- `AmexParser.extract`: the name field is searched, but then the source
binds `balance_match = re.finditer(...)` — an iterator object, which is
always truthy — and calls `balance_match.group(1)` on it, which raises
`AttributeError` on every input.  The partial dict is discarded by the
exception. -/
def amexExtract (t : Text) : Except String ExtractionResult :=
  let _data : ExtractionResult := match search preparedForPat t with
    | some m => [("Cardholder Name", pyStrip m)]
    | none => []
  Except.error "AttributeError: callable_iterator object has no attribute group"

/-- The registered issuers, one per parser class of the source. -/
inductive Issuer : Type
  | hdfc
  | chase
  | amex
  | capitalOne
  | bofa
  | citi
  deriving DecidableEq, Repr

/-- The `issuer_name` class attribute of each parser. -/
def issuerName : Issuer → String
  | .hdfc => "HDFC Bank"
  | .chase => "Chase"
  | .amex => "American Express"
  | .capitalOne => "Capital One"
  | .bofa => "Bank of America"
  | .citi => "Citi"

/-- The `required_keywords` class attribute of each parser. -/
def requiredKeywords : Issuer → List Text
  | .hdfc => ["HDFC BANK".data]
  | .chase => ["chase.com".data]
  | .amex => ["american express".data]
  | .capitalOne => ["capital one".data]
  | .bofa => ["bank of america".data]
  | .citi => ["citi.com".data]

/-- `BaseParser.identify`: all required keywords occur in the text, by
Python's case-sensitive substring test. -/
def identify (i : Issuer) (t : Text) : Bool :=
  (requiredKeywords i).all fun kw => containsSub kw t

/-- The registry `ALL_PARSERS`, in source order. -/
def ALL_PARSERS : List Issuer :=
  [.hdfc, .chase, .amex, .capitalOne, .bofa, .citi]

/-- The canonical field names `ALL_KEYS`, in source order. -/
def ALL_KEYS : List String :=
  ["Cardholder Name", "Card Last 4 Digits", "Payment Due Date",
   "Total Balance Due", "Billing Cycle"]

/-- `getParserFor`: the first parser in the registry whose `identify` accepts
the text, or `none`. -/
def getParserFor (t : Text) : Option Issuer :=
  ALL_PARSERS.find? fun p => identify p t

/-- The `extract` method of each parser class; a raised exception is an
`Except.error`.  Chase, Capital One, Bank of America and Citi return the
empty dict. -/
def extractOf : Issuer → Text → Except String ExtractionResult
  | .hdfc, t => .ok (hdfcExtract t)
  | .chase, _ => .ok []
  | .amex, t => amexExtract t
  | .capitalOne, _ => .ok []
  | .bofa, _ => .ok []
  | .citi, _ => .ok []

/-- The field lines printed by `process_pdf`: every canonical key in
`ALL_KEYS` order, with `extracted_data.get(key, 'Not Found')`. -/
def renderLines (d : ExtractionResult) : List (String × Text) :=
  ALL_KEYS.map fun k => (k, (d.lookup k).getD "Not Found".data)

/-- The observable outcome of processing one document's text. -/
inductive Outcome : Type
  | noText
  | noIssuer
  | noData (i : Issuer)
  | results (i : Issuer) (lines : List (String × Text))
  | unexpectedError (msg : String)
  deriving DecidableEq, Repr

/-- The body of `process_pdf`'s `try` block, from the blank-text check on,
as a function of the extracted page text: blank text, unidentified issuer,
empty extraction and the field listing each give their outcome, and an
exception raised inside the block is an `Except.error`. -/
def processBody (t : Text) : Except String Outcome :=
  if pyBlank t then .ok .noText
  else
    match getParserFor t with
    | none => .ok .noIssuer
    | some i =>
      match extractOf i t with
      | .error e => .error e
      | .ok d => .ok (if d.isEmpty then .noData i else .results i (renderLines d))

/-- `process_pdf`'s `except Exception` handler: an exception escaping the
body is caught and reported as the "unexpected error" outcome. -/
def processText (t : Text) : Outcome :=
  match processBody t with
  | .ok o => o
  | .error e => .unexpectedError e

/-- The registry as explicit state: `identify`'s read of the registry list,
returning the post-call state of the registry. -/
def identifyM (registry : List Issuer) (t : Text) : Option Issuer × List Issuer :=
  (registry.find? fun p => identify p t, registry)

/-- Extraction with the registry as explicit state: `extract` reads no
registry entry and writes nothing, so the state passes through unchanged. -/
def extractM (registry : List Issuer) (i : Issuer) (t : Text) :
    Except String ExtractionResult × List Issuer :=
  (extractOf i t, registry)

/-- The sample text of the spec's scenario, with the ellipses kept literal. -/
def sampleText : Text :=
  ("HDFC BANK ... Name: JOHN SMITH\n ... Card No.: XXXX 1234 ... " ++
   "Payment Due Date : 05/06/2024 ... Total Dues : 1,000.00 ... " ++
   "Statement Date : 01/06/2024").data

/-- A text identified as Chase. -/
def chaseText : Text := "visit chase.com today".data

/-- A lowercase variant of the HDFC name label. -/
def caseText : Text := "name: JOHN SMITH\n".data

/-- The uppercase (source-cased) HDFC name label. -/
def caseTextU : Text := "Name: JOHN SMITH\n".data

/-- A text whose balance amount is separated from its label by a newline. -/
def spanText : Text := "Total Dues \n 1,234.56 end".data

/-- Helper: `List.find?` returns the element at index `n` when it satisfies
the test and every earlier element fails it. -/
theorem find_first_of_earlier_false {α : Type} (p : α → Bool) :
    ∀ (l : List α) (n : Nat) (h : n < l.length),
      p (l.get ⟨n, h⟩) = true →
      (∀ (m : Nat) (hm : m < l.length), m < n → p (l.get ⟨m, hm⟩) = false) →
      l.find? p = some (l.get ⟨n, h⟩)
  | [], n, h, _, _ => absurd h (by simp)
  | a :: l, 0, h, hp, _ => by
    simp only [List.get] at hp
    simp [List.find?, hp]
  | a :: l, n + 1, h, hp, hearl => by
    have ha : p a = false := hearl 0 (by simp) (Nat.succ_pos n)
    have ih := find_first_of_earlier_false p l n (by simpa using h)
      (by simpa using hp)
      (fun m hm hmn => by
        simpa using hearl (m + 1) (by simpa using hm) (Nat.succ_lt_succ hmn))
    simp [List.find?, ha, ih]

/-- Helper: when a pattern begins with a literal, a successful search means
the literal occurs as a case-exact substring of the text. -/
theorem search_requires_lit (l : Text) (rs g2 p2 : List RE) :
    ∀ (t : Text) (g : Text),
      search ⟨RE.lit l :: rs, g2, p2⟩ t = some g → containsSub l t = true
  | [], g, h => by
    unfold search matchGrpAt at h
    simp only [matchSeq] at h
    by_cases hp : l.isPrefixOf ([] : Text) = true
    · cases l with
      | nil => simp [containsSub]
      | cons c cl => simp [List.isPrefixOf] at hp
    · simp [hp] at h
  | c :: t, g, h => by
    unfold search at h
    by_cases hp : l.isPrefixOf (c :: t) = true
    · unfold containsSub
      simp [hp]
    · have hm : matchGrpAt ⟨RE.lit l :: rs, g2, p2⟩ (c :: t) = none := by
        unfold matchGrpAt
        simp only [matchSeq]
        simp [hp]
      rw [hm] at h
      have ih := search_requires_lit l rs g2 p2 t g h
      unfold containsSub
      simp [ih]

/-- Helper: every key inserted by the HDFC extractor is a canonical key. -/
theorem hdfc_keys_sub (t : Text) :
    ∀ k ∈ (hdfcExtract t).map Prod.fst, k ∈ ALL_KEYS := by
  intro k hk
  unfold hdfcExtract at hk
  generalize search namePat t = o1 at hk
  generalize search cardPat t = o2 at hk
  generalize search dueDatePat t = o3 at hk
  generalize search balancePat t = o4 at hk
  generalize search periodPat t = o5 at hk
  rcases o1 with _ | m1 <;> rcases o2 with _ | m2 <;> rcases o3 with _ | m3 <;>
    rcases o4 with _ | m4 <;> rcases o5 with _ | m5 <;>
    simp [ALL_KEYS] at hk ⊢ <;> tauto

/-- Claim C1 (counterexample): identification is not case-insensitive.  The
text "hdfc bank" contains the HDFC keyword "HDFC BANK" up to letter case,
HDFC is the first profile in the registry, yet `identify` rejects it and
`getParserFor` returns `none` rather than the HDFC profile. -/
theorem C1_ci_counterexample :
    containsSub ("HDFC BANK".data.map Char.toLower) ("hdfc bank".data.map Char.toLower) = true
    ∧ identify Issuer.hdfc "hdfc bank".data = false
    ∧ getParserFor "hdfc bank".data = none := by
  refine ⟨by decide, by decide, by decide⟩

/-- Claim C1 (amended): issuer identification scans the registry in order
and a profile matches when all of its identification keywords (each
registered profile has exactly one) occur as case-sensitive substrings of
the text; for every text and every registry position n whose profile
matches while all earlier profiles fail, `getParserFor` returns that
profile. -/
theorem C1_first_match_wins (t : Text) (n : Nat) (h : n < ALL_PARSERS.length)
    (hmatch : identify (ALL_PARSERS.get ⟨n, h⟩) t = true)
    (hearl : ∀ (m : Nat) (hm : m < ALL_PARSERS.length), m < n →
      identify (ALL_PARSERS.get ⟨m, hm⟩) t = false) :
    getParserFor t = some (ALL_PARSERS.get ⟨n, h⟩) := by
  unfold getParserFor
  exact find_first_of_earlier_false _ ALL_PARSERS n h hmatch hearl

/-- Claim C1 witness: the Amex profile sits at registry index 2, the text
"american express" matches it and no earlier profile, so it is returned. -/
theorem C1_first_match_wins_witness :
    getParserFor "american express".data = some Issuer.amex := by
  have h := C1_first_match_wins "american express".data 2 (by decide) (by decide)
    (fun m hm hlt => by
      interval_cases m
      · exact (by decide : identify Issuer.hdfc "american express".data = false)
      · exact (by decide : identify Issuer.chase "american express".data = false))
  exact h

/-- Claim C2 (counterexample): on the spec's sample text the HDFC extractor
finds none of Card Last 4 Digits, Payment Due Date, Total Balance Due or
Billing Cycle, because the sample writes "Card No.:", a single "XXXX",
slash dates and a space before each colon, none of which the source's
patterns accept. -/
theorem C2_sample_counterexample :
    (hdfcExtract sampleText).lookup "Card Last 4 Digits" = none
    ∧ (hdfcExtract sampleText).lookup "Payment Due Date" = none
    ∧ (hdfcExtract sampleText).lookup "Total Balance Due" = none
    ∧ (hdfcExtract sampleText).lookup "Billing Cycle" = none := by
  refine ⟨by decide, by decide, by decide, by decide⟩

/-- Claim C2 (amended): on the spec's sample text the issuer is identified
as HDFC Bank and extraction yields exactly Cardholder Name = "JOHN SMITH";
the other four canonical fields are not extracted. -/
theorem C2_sample_extraction :
    getParserFor sampleText = some Issuer.hdfc
    ∧ hdfcExtract sampleText = [("Cardholder Name", "JOHN SMITH".data)] := by
  refine ⟨by decide, by decide⟩

/-- Claim C3: the Amex extractor raises on every input text, contradicting
the claim that extract never raises: the source binds `re.finditer`'s
iterator, which is always truthy, and calls `.group(1)` on it, an
`AttributeError`. -/
theorem C3_amex_extract_always_raises (t : Text) :
    extractOf Issuer.amex t =
      Except.error "AttributeError: callable_iterator object has no attribute group" := rfl

/-- Claim C3 witness: the raise occurs concretely on an Amex-identified
text. -/
theorem C3_amex_extract_always_raises_witness :
    extractOf Issuer.amex "american express".data =
      Except.error "AttributeError: callable_iterator object has no attribute group" :=
  C3_amex_extract_always_raises "american express".data

/-- Claim C4 (counterexample): on empty text the HDFC extractor returns the
empty dict, whose key set is not the canonical field name set. -/
theorem C4_empty_counterexample :
    (hdfcExtract []).map Prod.fst = ([] : List String) ∧ ALL_KEYS ≠ [] := by
  refine ⟨by decide, by decide⟩

/-- Claim C4 (amended): whenever an extractor returns a dict, its key set is
a subset of the canonical field name set; missing fields are absent from
the dict and only rendered as "Not Found" at display time. -/
theorem C4_keys_subset (i : Issuer) (t : Text) (d : ExtractionResult)
    (h : extractOf i t = Except.ok d) :
    ∀ k ∈ d.map Prod.fst, k ∈ ALL_KEYS := by
  cases i with
  | hdfc =>
    simp only [extractOf, Except.ok.injEq] at h
    subst h
    exact hdfc_keys_sub t
  | chase =>
    simp only [extractOf, Except.ok.injEq] at h
    subst h
    simp
  | amex =>
    simp [extractOf, amexExtract] at h
  | capitalOne =>
    simp only [extractOf, Except.ok.injEq] at h
    subst h
    simp
  | bofa =>
    simp only [extractOf, Except.ok.injEq] at h
    subst h
    simp
  | citi =>
    simp only [extractOf, Except.ok.injEq] at h
    subst h
    simp

/-- Claim C4 witness: at the sample text the HDFC dict's only key is
canonical. -/
theorem C4_keys_subset_witness : "Cardholder Name" ∈ ALL_KEYS :=
  C4_keys_subset Issuer.hdfc sampleText (hdfcExtract sampleText) rfl
    "Cardholder Name" (by decide)

/-- Claim C5 (counterexample): a text identified as Chase extracts an empty
dict, and processing takes the "No data could be extracted" branch instead
of emitting the canonical field listing — so fields are not emitted when no
field was found. -/
theorem C5_no_data_counterexample :
    getParserFor chaseText = some Issuer.chase
    ∧ processText chaseText = Outcome.noData Issuer.chase := by
  refine ⟨by decide, by decide⟩

/-- Claim C5 (amended): whenever the extracted dict is non-empty, the
result lines are emitted for every canonical field in the fixed canonical
order, regardless of issuer; when the dict is empty the distinct "no data"
outcome is produced instead. -/
theorem C5_canonical_order (t : Text) (i : Issuer) (d : ExtractionResult)
    (hnb : pyBlank t = false) (hid : getParserFor t = some i)
    (hex : extractOf i t = Except.ok d) (hne : d ≠ []) :
    processText t = Outcome.results i (renderLines d)
    ∧ (renderLines d).map Prod.fst = ALL_KEYS := by
  constructor
  · rcases d with _ | ⟨p, d⟩
    · exact absurd rfl hne
    · unfold processText processBody
      simp [hnb, hid, hex]
  · rfl

/-- Claim C5 witness: the amended statement at the HDFC sample text. -/
theorem C5_canonical_order_witness :
    processText sampleText =
      Outcome.results Issuer.hdfc (renderLines [("Cardholder Name", "JOHN SMITH".data)])
    ∧ (renderLines [("Cardholder Name", "JOHN SMITH".data)]).map Prod.fst = ALL_KEYS :=
  C5_canonical_order sampleText Issuer.hdfc [("Cardholder Name", "JOHN SMITH".data)]
    (by decide) (by decide) (congrArg Except.ok (by decide)) (by decide)

/-- Claim C6 (counterexample): matching is not case-insensitive: the HDFC
name pattern finds the cardholder after the label "Name:" but not after the
label "name:", which a case-insensitive match mode could not distinguish. -/
theorem C6_case_counterexample :
    (hdfcExtract caseTextU).lookup "Cardholder Name" = some "JOHN SMITH".data
    ∧ (hdfcExtract caseText).lookup "Cardholder Name" = none := by
  refine ⟨by decide, by decide⟩

/-- Claim C6 (amended): patterns are applied with Python's default flags:
matching is case-sensitive — a successful name search requires the literal
"Name:" to occur verbatim in the text — while patterns may still span line
breaks through their whitespace classes, as the balance pattern does across
a newline. -/
theorem C6_case_sensitive_spans_newlines :
    (∀ (t g : Text), search namePat t = some g → containsSub "Name:".data t = true)
    ∧ (hdfcExtract spanText).lookup "Total Balance Due" = some "₹1,234.56".data := by
  constructor
  · intro t g h
    exact search_requires_lit "Name:".data [RE.clsPlus pyWs] [RE.clsPlus upperOrWs]
      [RE.lit "\n".data] t g h
  · decide

/-- Claim C6 witness: the first conjunct applied at a concrete successful
search. -/
theorem C6_case_sensitive_spans_newlines_witness :
    containsSub "Name:".data caseTextU = true :=
  C6_case_sensitive_spans_newlines.1 caseTextU "JOHN SMITH".data (by decide)

/-- Claim C7: on empty or whitespace-only text, processing reports the
distinct "no text" outcome, which is not the "issuer not identified"
outcome; the blank-text check precedes issuer identification. -/
theorem C7_blank_reports_no_text (t : Text) (h : pyBlank t = true) :
    processText t = Outcome.noText ∧ processText t ≠ Outcome.noIssuer := by
  unfold processText processBody
  rw [h]
  simp

/-- Claim C7 witness: the theorem at a concrete whitespace-only text. -/
theorem C7_blank_reports_no_text_witness :
    processText "  \t ".data = Outcome.noText
    ∧ processText "  \t ".data ≠ Outcome.noIssuer :=
  C7_blank_reports_no_text "  \t ".data (by decide)

/-- Claim C8: an exception escaping the processing body is caught and
surfaced as the explicit "unexpected error" outcome rather than propagated;
in particular every text identified as Amex — whose extractor raises — is
reported with its error, alongside the document, instead of crashing. -/
theorem C8_errors_reported :
    (∀ (t : Text) (e : String), processBody t = Except.error e →
      processText t = Outcome.unexpectedError e)
    ∧ (∀ t : Text, pyBlank t = false → getParserFor t = some Issuer.amex →
      processText t = Outcome.unexpectedError
        "AttributeError: callable_iterator object has no attribute group") := by
  constructor
  · intro t e h
    unfold processText
    rw [h]
  · intro t hnb hid
    unfold processText processBody
    simp [hnb, hid, extractOf, amexExtract]

/-- Claim C8 witness: the Amex-identified text "american express" is
reported as an unexpected error, not propagated. -/
theorem C8_errors_reported_witness :
    processText "american express".data = Outcome.unexpectedError
      "AttributeError: callable_iterator object has no attribute group" :=
  C8_errors_reported.2 "american express".data (by decide) (by decide)

/-- Claim C9: the registry is read-only state: identification and
extraction leave it unchanged, and extracting a second time after a first
extraction yields the identical result, including an identical raised
error. -/
theorem C9_registry_read_only (registry : List Issuer) (i : Issuer) (t : Text) :
    (identifyM registry t).2 = registry
    ∧ (extractM registry i t).2 = registry
    ∧ (extractM (extractM registry i t).2 i t).1 = (extractM registry i t).1 :=
  ⟨rfl, rfl, rfl⟩

/-- Claim C9 witness: the theorem at the full registry, the HDFC issuer and
the sample text. -/
theorem C9_registry_read_only_witness :
    (identifyM ALL_PARSERS sampleText).2 = ALL_PARSERS
    ∧ (extractM ALL_PARSERS Issuer.hdfc sampleText).2 = ALL_PARSERS
    ∧ (extractM (extractM ALL_PARSERS Issuer.hdfc sampleText).2 Issuer.hdfc sampleText).1
      = (extractM ALL_PARSERS Issuer.hdfc sampleText).1 :=
  C9_registry_read_only ALL_PARSERS Issuer.hdfc sampleText

/-- Claim C10: the Chase, Capital One, Bank of America and Citi extractors
return the empty dict on every text, and any document identified as one of
these four issuers takes the "No data could be extracted" branch. -/
theorem C10_stub_parsers_no_data :
    (∀ t : Text,
      extractOf Issuer.chase t = Except.ok []
      ∧ extractOf Issuer.capitalOne t = Except.ok []
      ∧ extractOf Issuer.bofa t = Except.ok []
      ∧ extractOf Issuer.citi t = Except.ok [])
    ∧ (∀ (t : Text) (i : Issuer), pyBlank t = false → getParserFor t = some i →
      (i = Issuer.chase ∨ i = Issuer.capitalOne ∨ i = Issuer.bofa ∨ i = Issuer.citi) →
      processText t = Outcome.noData i) := by
  constructor
  · intro t
    exact ⟨rfl, rfl, rfl, rfl⟩
  · intro t i hnb hid hfour
    unfold processText processBody
    rcases hfour with h | h | h | h <;> subst h <;> simp [hnb, hid, extractOf]

/-- Claim C10 witness: a concrete Chase-identified text ends in the no-data
branch. -/
theorem C10_stub_parsers_no_data_witness :
    processText chaseText = Outcome.noData Issuer.chase :=
  C10_stub_parsers_no_data.2 chaseText Issuer.chase (by decide) (by decide) (Or.inl rfl)

end PDFParser
